import Mathlib

/-!
Shallow embedding of the Ollama integration client
(`backend/services/ollama_service.py`) of the prompt-laboratory repository,
together with theorems settling the specification claims about it.

Modelling conventions:
* Machine time is modelled as integer ticks (`Nat`); `time.sleep` amounts are
  accumulated in a `totalSleep` counter instead of really sleeping.
* The HTTP library is replaced by a `schedule : Nat → AttemptOutcome α`
  oracle giving the outcome of each attempt (indexed like the Python loop
  variable `attempt`), and by fetch oracles for the higher-level workflows.
* Python exceptions become an `Except` result; the two exception classes
  `OllamaConnectionError` and `OllamaTimeoutError` become the constructors
  `OllamaError.connectionError` / `OllamaError.timeoutError`.  The statement
  `raise last_exception` with `last_exception = None` (a Python `TypeError`)
  is the constructor `OllamaError.raiseNone`.
* Python floats are modelled as exact rationals; `round(x, n)` is modelled by
  round-half-to-even on rationals, matching CPython's documented rounding.
-/

/-- The two exception classes of the service, plus the untyped failure that
`raise last_exception` produces when `last_exception` is still `None`
(in CPython: `TypeError: exceptions must derive from BaseException`). -/
inductive OllamaError where
  | connectionError (msg : String)
  | timeoutError (msg : String)
  | raiseNone
deriving DecidableEq, Repr

/-- Constructor tag of an `OllamaError`, i.e. which exception class was
raised, ignoring the message. -/
inductive FailureTag where
  | connection
  | timeout
  | untypedNone
deriving DecidableEq, Repr

/-- The exception class (failure kind) of a raised `OllamaError`. -/
def OllamaError.tag : OllamaError → FailureTag
  | .connectionError _ => .connection
  | .timeoutError _ => .timeout
  | .raiseNone => .untypedNone

/-- Outcome of one underlying `self.session.request(...)` attempt, as
classified by the `except` clauses of `_make_request`:
a 2xx/3xx response (`raise_for_status` passes), a `requests` timeout,
a `requests` connection error, an HTTP error status (4xx/5xx), or any
other exception. -/
inductive AttemptOutcome (α : Type) where
  | success (resp : α)
  | timeout
  | connectionFailure
  | httpError (status : Nat) (body : String)
  | otherError (msg : String)

/-- Constructor-time knobs of `OllamaService.__init__`. -/
structure ServiceConfig where
  endpoint : String
  timeout : Nat
  maxRetries : Nat
  cacheDuration : Nat

/-- Message of `OllamaTimeoutError` in `_make_request`. -/
def timeoutMsg (cfg : ServiceConfig) : String :=
  "Request timed out after " ++ toString cfg.timeout ++ " seconds"

/-- Message of `OllamaConnectionError` for a transport-level connection
failure in `_make_request`. -/
def connMsg (cfg : ServiceConfig) : String :=
  "Failed to connect to Ollama at " ++ cfg.endpoint

/-- Message of `OllamaConnectionError` for an HTTP 5xx in `_make_request`. -/
def serverErrMsg (status : Nat) : String :=
  "Ollama server error: " ++ toString status

/-- Message of `OllamaConnectionError` for an HTTP 4xx in `_make_request`:
carries the status code and the response body text. -/
def clientErrMsg (status : Nat) (body : String) : String :=
  "Ollama API error: " ++ toString status ++ " - " ++ body

/-- Message of `OllamaConnectionError` for an unexpected exception in
`_make_request`. -/
def otherMsg (msg : String) : String :=
  "Unexpected error communicating with Ollama: " ++ msg

/-- Result of a `_make_request` run: the returned response or raised error,
the total number of time units slept in backoff, and the number of attempts
actually issued to the transport. -/
structure ReqResult (α : Type) where
  result : Except OllamaError α
  totalSleep : Nat
  attempts : Nat

/-- The retry loop of `_make_request`, one constructor case per iteration.
`fuel` is the number of loop iterations still available
(`cfg.maxRetries - attempt`), `attempt` the current 0-indexed attempt,
`last` the current value of `last_exception`, and `acc` the backoff time
slept so far.  Mirrors lines 66-97 of `ollama_service.py`: a success
returns immediately; timeout / connection error / 5xx / unexpected
exceptions set `last_exception` and fall through to the backoff sleep
(`2 ^ attempt`, skipped on the final iteration because of
`attempt < max_retries - 1`); a non-5xx `HTTPError` (4xx) raises
immediately; when the loop ends, `raise last_exception`. -/
def makeRequestAux {α : Type} (cfg : ServiceConfig) (schedule : Nat → AttemptOutcome α) :
    Nat → Nat → Option OllamaError → Nat → ReqResult α
  | 0, attempt, last, acc => ⟨.error (last.getD .raiseNone), acc, attempt⟩
  | fuel + 1, attempt, _last, acc =>
    match schedule attempt with
    | .success r => ⟨.ok r, acc, attempt + 1⟩
    | .timeout =>
        makeRequestAux cfg schedule fuel (attempt + 1)
          (some (.timeoutError (timeoutMsg cfg)))
          (if attempt < cfg.maxRetries - 1 then acc + 2 ^ attempt else acc)
    | .connectionFailure =>
        makeRequestAux cfg schedule fuel (attempt + 1)
          (some (.connectionError (connMsg cfg)))
          (if attempt < cfg.maxRetries - 1 then acc + 2 ^ attempt else acc)
    | .httpError status body =>
        if 500 ≤ status then
          makeRequestAux cfg schedule fuel (attempt + 1)
            (some (.connectionError (serverErrMsg status)))
            (if attempt < cfg.maxRetries - 1 then acc + 2 ^ attempt else acc)
        else
          ⟨.error (.connectionError (clientErrMsg status body)), acc, attempt + 1⟩
    | .otherError m =>
        makeRequestAux cfg schedule fuel (attempt + 1)
          (some (.connectionError (otherMsg m)))
          (if attempt < cfg.maxRetries - 1 then acc + 2 ^ attempt else acc)

/-- Function `OllamaService._make_request`: run the retry loop from attempt 0 with
`last_exception = None` and no time slept. -/
def makeRequest {α : Type} (cfg : ServiceConfig) (schedule : Nat → AttemptOutcome α) :
    ReqResult α :=
  makeRequestAux cfg schedule cfg.maxRetries 0 none 0

example :
    (makeRequest ⟨"e", 30, 3, 300⟩
      (fun i => if i < 2 then AttemptOutcome.timeout else AttemptOutcome.success "ok")).totalSleep
      = 3 := rfl

example :
    (makeRequest ⟨"e", 30, 3, 300⟩
      (fun i => if i < 2 then AttemptOutcome.timeout else AttemptOutcome.success "ok")).attempts
      = 3 := rfl

example :
    (makeRequest (α := String) ⟨"e", 30, 3, 300⟩ (fun _ => AttemptOutcome.httpError 404 "nf")).result
      = .error (.connectionError "Ollama API error: 404 - nf") := rfl

example :
    (makeRequest (α := String) ⟨"e", 30, 0, 300⟩ (fun _ => AttemptOutcome.timeout)).result
      = .error .raiseNone := rfl

/-- Helper for `pyStrip`: drop leading whitespace characters. -/
def dropLeadingWs : List Char → List Char
  | [] => []
  | c :: rest => if c.isWhitespace then dropLeadingWs rest else c :: rest

/-- Python's `str.strip()`: remove leading and trailing whitespace. -/
def pyStrip (s : String) : String :=
  String.mk (List.reverse (dropLeadingWs (List.reverse (dropLeadingWs s.data))))

/-- Expression `data.get('response', '').strip()`: read the optional `response` field
with an empty-string default and strip it. -/
def stripGet (body : Option String) : String :=
  pyStrip (body.getD "")

/-- Python's `a or b` on an optional string (`target_model or
config.default_model`): the second operand when the first is `None` or the
empty string, the first otherwise. -/
def pyOrStr (a b : Option String) : Option String :=
  match a with
  | some s => if s = "" then b else some s
  | none => b

/-- CPython's banker's rounding of a rational to the nearest integer
(ties to even), the rounding used by the built-in `round`. -/
def pyRound (q : ℚ) : ℤ :=
  if Int.fract q < 1 / 2 then ⌊q⌋
  else if 1 / 2 < Int.fract q then ⌊q⌋ + 1
  else if ⌊q⌋ % 2 = 0 then ⌊q⌋ else ⌊q⌋ + 1

/-- Python `round(x, 1)`. -/
def pyRound1 (q : ℚ) : ℚ := (pyRound (q * 10) : ℚ) / 10

/-- Python `round(x, 2)`. -/
def pyRound2 (q : ℚ) : ℚ := (pyRound (q * 100) : ℚ) / 100

/-- One raw model record of the `GET /api/tags` JSON body; each field is
optional because the Python code reads it with `dict.get`. -/
structure RawModel where
  name : Option String
  size : Option Nat
  modified_at : Option String
  digest : Option String

/-- One entry of the list built by `get_available_models`. -/
structure ModelInfo where
  name : String
  size : Nat
  modified_at : String
  digest : String
  size_mb : ℚ
deriving DecidableEq, Repr

/-- The dictionary built from one raw record in `get_available_models`
(lines 154-160): defaults for missing fields, and
`size_mb = round(size / (1024 * 1024), 1) if model.get('size') else 0`,
where `model.get('size')` is falsy exactly when `size` is missing or 0. -/
def toModelInfo (m : RawModel) : ModelInfo where
  name := m.name.getD ""
  size := m.size.getD 0
  modified_at := m.modified_at.getD ""
  digest := m.digest.getD ""
  size_mb :=
    if m.size.getD 0 ≠ 0 then pyRound1 ((m.size.getD 0 : ℚ) / (1024 * 1024)) else 0

/-- The mutable cache fields of the service: `_models_cache` and
`_models_cache_time` (time in integer ticks). -/
structure CacheState where
  modelsCache : Option (List ModelInfo)
  modelsCacheTime : Option Nat
deriving DecidableEq, Repr

/-- Method `OllamaService._is_cache_valid` at time `now`: false when either cache
field is `None`, otherwise `now < cache_time + cache_duration` (cache age
strictly below the TTL). -/
def is_cache_valid (cacheDuration : Nat) (st : CacheState) (now : Nat) : Bool :=
  match st.modelsCache, st.modelsCacheTime with
  | some _, some t => decide (now < t + cacheDuration)
  | _, _ => false

/-- What the network + JSON parsing yields inside the `try` block of
`get_available_models`: `_make_request` raised, `response.json()` raised,
or a parsed body whose `models` list (via `data.get('models', [])`) is
given. -/
inductive FetchResult where
  | transportError (e : OllamaError)
  | parseError (msg : String)
  | parsed (models : List RawModel)

/-- CPython's message for `raise None`. -/
def typeErrorMessage : String := "exceptions must derive from BaseException"

/-- The common `except Exception` epilogue of `get_available_models`,
`refine_prompt` and `test_prompt`: re-raise `OllamaConnectionError` and
`OllamaTimeoutError` unchanged, wrap anything else (in particular the
`TypeError` from `raise None`) in an `OllamaConnectionError` whose message
starts with the function's wrap prefix. -/
def reraise (wrapPrefixMsg : String) (e : OllamaError) : OllamaError :=
  match e with
  | .raiseNone => .connectionError (wrapPrefixMsg ++ typeErrorMessage)
  | e => e

/-- Result of one `get_available_models` call: the returned list or raised
error, the cache state after the call, and whether a network request was
issued. -/
structure ListModelsResult where
  result : Except OllamaError (List ModelInfo)
  state : CacheState
  networkCalled : Bool

/-- Method `OllamaService.get_available_models` (lines 130-171) as a state
transition at time `now`, with `fetch` the outcome the network and JSON
parsing would produce if consulted: a valid cache with `use_cache` returns
a copy of the cached list without any network call; otherwise the fetch
outcome decides — transport errors re-raise (typed ones unchanged),
parse failures raise a wrapped `OllamaConnectionError`, and only a fully
successful fetch-and-parse replaces both cache fields. -/
def get_available_models (cacheDuration : Nat) (st : CacheState) (now : Nat)
    (fetch : FetchResult) (use_cache : Bool := true) : ListModelsResult :=
  if use_cache && is_cache_valid cacheDuration st now then
    { result := .ok (st.modelsCache.getD []), state := st, networkCalled := false }
  else
    match fetch with
    | .transportError e =>
        { result := .error (reraise "Failed to parse models response: " e),
          state := st, networkCalled := true }
    | .parseError msg =>
        { result := .error (.connectionError ("Failed to parse models response: " ++ msg)),
          state := st, networkCalled := true }
    | .parsed raws =>
        let models := raws.map toModelInfo
        { result := .ok models,
          state := { modelsCache := some models, modelsCacheTime := some now },
          networkCalled := true }

/-- Method `OllamaService.refresh_models_cache`: `get_available_models` with
`use_cache=False`. -/
def refresh_models_cache (cacheDuration : Nat) (st : CacheState) (now : Nat)
    (fetch : FetchResult) : ListModelsResult :=
  get_available_models cacheDuration st now fetch false

/-- Method `OllamaService.clear_models_cache`: reset both cache fields to `None`. -/
def clear_models_cache (_st : CacheState) : CacheState :=
  { modelsCache := none, modelsCacheTime := none }

/-- A value of the dictionary returned by `get_cache_info`. -/
inductive CacheInfoValue where
  | boolV (b : Bool)
  | natV (n : Nat)
  | strV (s : String)
  | noneV
deriving DecidableEq, Repr

/-- Method `OllamaService.get_cache_info` (lines 187-213) as the key/value list of
the returned dictionary (timestamps rendered from ticks).  When either
cache field is `None` the returned dictionary has five keys and no
`cache_duration_seconds` entry; otherwise it has six keys including
`cache_duration_seconds`. -/
def get_cache_info (cacheDuration : Nat) (st : CacheState) (now : Nat) :
    List (String × CacheInfoValue) :=
  match st.modelsCache, st.modelsCacheTime with
  | some cache, some t =>
      [("cached", .boolV true),
       ("cache_time", .strV (toString t)),
       ("cache_age_seconds", .natV (now - t)),
       ("cache_valid", .boolV (is_cache_valid cacheDuration st now)),
       ("models_count", .natV cache.length),
       ("cache_duration_seconds", .natV cacheDuration)]
  | _, _ =>
      [("cached", .boolV false),
       ("cache_time", .noneV),
       ("cache_age_seconds", .noneV),
       ("cache_valid", .boolV false),
       ("models_count", .natV 0)]

/-- Modelled from the spec: the YAML-backed configuration collaborator
`backend.config.config`, whose module is not among the sources; per the
spec it supplies the endpoint URL, the default model name, the default
temperature, the default request timeout, the retry count and the cache
TTL.  Only the fields the service methods read are modelled; the default
model is optional so that the "no default configured" situation is
representable. -/
structure AppConfig where
  default_model : Option String
  default_temperature : ℚ

/-- Dataclass `MetaPromptParameters` of `prompts_config.py` (floats as rationals),
with the dataclass defaults. -/
structure MetaPromptParameters where
  temperature : ℚ := 3 / 10
  top_p : ℚ := 9 / 10
  top_k : Int := 0
  repeat_penalty : ℚ := 11 / 10
deriving DecidableEq, Repr

/-- Dataclass `MetaPromptConfig` of `prompts_config.py`. -/
structure MetaPromptConfig where
  template : String
  parameters : MetaPromptParameters

/-- Method `MetaPromptConfig.format_prompt`: substitute the objective for the
`{objective}` placeholder of the template. -/
def MetaPromptConfig.format_prompt (c : MetaPromptConfig) (objective : String) : String :=
  c.template.replace "{objective}" objective

/-- The `options` object of a `POST /api/generate` body: `refine_prompt`
sends the four meta-prompt parameters, `test_prompt` sends temperature and
a fixed `top_p = 0.9`. -/
structure GenOptions where
  temperature : Option ℚ := none
  top_p : Option ℚ := none
  top_k : Option Int := none
  repeat_penalty : Option ℚ := none
deriving DecidableEq, Repr

/-- The JSON body of an outbound `POST /api/generate` request, plus the
effective request-level timeout (`test_prompt` passes an explicit
`timeout=` kwarg; otherwise `_make_request` defaults it to the instance
timeout). The `model` field is optional: Python would serialise `None` as
JSON `null`. -/
structure GeneratePayload where
  model : Option String
  prompt : String
  stream : Bool
  options : GenOptions
  request_timeout : Nat
deriving DecidableEq, Repr

/-- What the network + JSON parsing yields inside the `try` block of
`refine_prompt` / `test_prompt`: `_make_request` raised, `response.json()`
raised, or a parsed body whose optional `response` field is given. -/
inductive GenFetch where
  | transportError (e : OllamaError)
  | parseError (msg : String)
  | parsed (response : Option String)

/-- Result of a workflow call: the outbound payload it sent (or would have
sent) and the returned value or raised error. -/
structure WorkflowResult (α : Type) where
  payload : GeneratePayload
  result : Except OllamaError α

/-- Method `OllamaService.refine_prompt` (lines 228-268): resolve the model with
`target_model or config.default_model`, format the meta-prompt template
with the objective, send one non-streaming generation request with the
meta-prompt sampling parameters, then trim the `response` field and treat
an empty trimmed text as an `OllamaConnectionError`. -/
def refine_prompt (appCfg : AppConfig) (meta : MetaPromptConfig) (selfTimeout : Nat)
    (fetch : GeneratePayload → GenFetch) (objective : String)
    (target_model : Option String := none) : WorkflowResult String :=
  let model := pyOrStr target_model appCfg.default_model
  let payload : GeneratePayload :=
    { model := model
      prompt := meta.format_prompt objective
      stream := false
      options :=
        { temperature := some meta.parameters.temperature
          top_p := some meta.parameters.top_p
          top_k := some meta.parameters.top_k
          repeat_penalty := some meta.parameters.repeat_penalty }
      request_timeout := selfTimeout }
  { payload := payload
    result :=
      match fetch payload with
      | .transportError e => .error (reraise "Failed to refine prompt: " e)
      | .parseError msg => .error (.connectionError ("Failed to refine prompt: " ++ msg))
      | .parsed body =>
          let refined := stripGet body
          if refined = "" then
            .error (.connectionError
              "Received empty response from Ollama during prompt refinement")
          else .ok refined }

/-- The dictionary returned by `test_prompt` on success. -/
structure TestResult where
  response : String
  execution_time : ℚ
  model : Option String
  temperature : ℚ
  timeout : Nat
  system_prompt : String
  user_input : String
deriving DecidableEq, Repr

/-- Method `OllamaService.test_prompt` (lines 270-386): resolve the model with
`model or config.default_model`, the temperature with
`temperature if temperature is not None else config.default_temperature`,
the timeout with `timeout if timeout is not None else self.timeout`;
build `f"{system_prompt}\n\nUser: {user_input}\n\nAssistant:"`; send one
non-streaming generation request with the resolved temperature,
`top_p = 0.9` and the resolved request-level timeout; trim the `response`
field, fail on empty text, and otherwise return it with every resolved
parameter echoed.  `elapsed` is the wall-clock duration of the HTTP call,
an input of the model. -/
def test_prompt (appCfg : AppConfig) (selfTimeout : Nat)
    (fetch : GeneratePayload → GenFetch) (elapsed : ℚ)
    (system_prompt user_input : String)
    (model : Option String := none) (temperature : Option ℚ := none)
    (timeout : Option Nat := none) : WorkflowResult TestResult :=
  let model' := pyOrStr model appCfg.default_model
  let temperature' := match temperature with
    | some t => t
    | none => appCfg.default_temperature
  let request_timeout := match timeout with
    | some t => t
    | none => selfTimeout
  let payload : GeneratePayload :=
    { model := model'
      prompt := system_prompt ++ "\n\nUser: " ++ user_input ++ "\n\nAssistant:"
      stream := false
      options := { temperature := some temperature', top_p := some (9 / 10) }
      request_timeout := request_timeout }
  { payload := payload
    result :=
      match fetch payload with
      | .transportError e => .error (reraise "Failed to test prompt: " e)
      | .parseError msg => .error (.connectionError ("Failed to test prompt: " ++ msg))
      | .parsed body =>
          let ai_response := stripGet body
          if ai_response = "" then
            .error (.connectionError
              "Received empty response from Ollama during prompt testing")
          else
            .ok { response := ai_response
                  execution_time := pyRound2 elapsed
                  model := model'
                  temperature := temperature'
                  timeout := request_timeout
                  system_prompt := system_prompt
                  user_input := user_input } }

example :
    (test_prompt ⟨some "m", 7 / 10⟩ 30 (fun _ => .parsed (some " Hello ")) 1 "S" "U"
      none (some 0) none).result
      = .ok { response := "Hello", execution_time := pyRound2 1, model := some "m",
              temperature := 0, timeout := 30, system_prompt := "S",
              user_input := "U" } := rfl

example :
    (refine_prompt ⟨some "m", 7 / 10⟩ ⟨"Do: {objective}", {}⟩ 30
      (fun _ => .parsed (some "   ")) "x" none).result
      = .error (.connectionError
          "Received empty response from Ollama during prompt refinement") := rfl
/-- Key run lemma for the retry loop: starting at `attempt` with
`cfg.maxRetries - attempt` iterations left, `k` consecutive timeouts
followed by a success (all within the retry budget) return that success
after backoff sleeps summing to `2 ^ (attempt + k) - 2 ^ attempt`. -/
theorem makeRequestAux_timeout_run {α : Type} (cfg : ServiceConfig)
    (schedule : Nat → AttemptOutcome α) (r : α) :
    ∀ (k attempt : Nat) (last : Option OllamaError) (acc : Nat),
      (∀ j, j < k → schedule (attempt + j) = AttemptOutcome.timeout) →
      schedule (attempt + k) = AttemptOutcome.success r →
      attempt + k < cfg.maxRetries →
      makeRequestAux cfg schedule (cfg.maxRetries - attempt) attempt last acc =
        ⟨Except.ok r, acc + (2 ^ (attempt + k) - 2 ^ attempt), attempt + k + 1⟩ := by
  intro k
  induction k with
  | zero =>
    intro attempt last acc hto hs hlt
    have hs' : schedule attempt = AttemptOutcome.success r := by simpa using hs
    obtain ⟨f, hf⟩ : ∃ f, cfg.maxRetries - attempt = f + 1 :=
      ⟨cfg.maxRetries - attempt - 1, by omega⟩
    rw [hf]
    simp [makeRequestAux, hs']
  | succ k ih =>
    intro attempt last acc hto hs hlt
    have h0 : schedule attempt = AttemptOutcome.timeout := by
      simpa using hto 0 (Nat.succ_pos k)
    obtain ⟨f, hf⟩ : ∃ f, cfg.maxRetries - attempt = f + 1 :=
      ⟨cfg.maxRetries - attempt - 1, by omega⟩
    rw [hf]
    have hslept : attempt < cfg.maxRetries - 1 := by omega
    have hfe : f = cfg.maxRetries - (attempt + 1) := by omega
    have hto' : ∀ j, j < k → schedule (attempt + 1 + j) = AttemptOutcome.timeout := by
      intro j hj
      have h := hto (j + 1) (by omega)
      rwa [show attempt + (j + 1) = attempt + 1 + j by omega] at h
    have hs' : schedule (attempt + 1 + k) = AttemptOutcome.success r := by
      rwa [show attempt + (k + 1) = attempt + 1 + k by omega] at hs
    have hrec := ih (attempt + 1) (some (.timeoutError (timeoutMsg cfg)))
      (acc + 2 ^ attempt) hto' hs' (by omega)
    simp only [makeRequestAux, h0, if_pos hslept]
    rw [hfe]
    rw [hrec]
    have e1 : attempt + 1 + k = attempt + (k + 1) := by omega
    rw [e1]
    have hsl : acc + 2 ^ attempt + (2 ^ (attempt + (k + 1)) - 2 ^ (attempt + 1)) =
        acc + (2 ^ (attempt + (k + 1)) - 2 ^ attempt) := by
      have hp : 2 ^ (attempt + 1) ≤ 2 ^ (attempt + (k + 1)) :=
        Nat.pow_le_pow_right (by norm_num) (by omega)
      have hps : 2 ^ (attempt + 1) = 2 ^ attempt * 2 := by rw [pow_succ]
      omega
    rw [hsl]

/-- C1 (amended): for `N < max_retries`, `N` consecutive timeouts followed
by a success make `_make_request` succeed after `N + 1` attempts with total
backoff `2^0 + ... + 2^(N-1) = 2^N - 1` time units. -/
theorem makeRequest_timeouts_then_success {α : Type} (cfg : ServiceConfig)
    (schedule : Nat → AttemptOutcome α) (r : α) (N : Nat)
    (hto : ∀ j, j < N → schedule j = AttemptOutcome.timeout)
    (hs : schedule N = AttemptOutcome.success r)
    (hN : N < cfg.maxRetries) :
    makeRequest cfg schedule = ⟨Except.ok r, 2 ^ N - 1, N + 1⟩ := by
  have h := makeRequestAux_timeout_run cfg schedule r N 0 none 0
    (by simpa using hto) (by simpa using hs) (by omega)
  unfold makeRequest
  simpa using h

/-- C1 witness: with `max_retries = 3`, two timeouts then a success give a
successful call after 3 attempts and `2^0 + 2^1 = 3` time units of backoff. -/
theorem makeRequest_timeouts_then_success_witness :
    makeRequest ⟨"e", 30, 3, 300⟩
        (fun i => if i < 2 then AttemptOutcome.timeout else AttemptOutcome.success "ok")
      = ⟨Except.ok "ok", 2 ^ 2 - 1, 2 + 1⟩ :=
  makeRequest_timeouts_then_success ⟨"e", 30, 3, 300⟩ _ "ok" 2
    (fun j hj => by simp [hj]) (by norm_num) (by norm_num)

/-- C1 counterexample: with `max_retries = 1` and `N = 1` (so `N ≤
max_retries`), one timeout followed by an attempt that would succeed does
not make the call succeed with total backoff `2^0 = 1`: the loop is
exhausted after the single attempt, no backoff is slept, and the timeout
failure is raised. -/
theorem makeRequest_at_max_retries_fails :
    (makeRequest ⟨"e", 30, 1, 300⟩
        (fun i => if i < 1 then AttemptOutcome.timeout else AttemptOutcome.success "ok")).result
      = .error (.timeoutError (timeoutMsg ⟨"e", 30, 1, 300⟩))
    ∧ (makeRequest ⟨"e", 30, 1, 300⟩
        (fun i => if i < 1 then AttemptOutcome.timeout else AttemptOutcome.success "ok")).totalSleep
      = 0
    ∧ (makeRequest ⟨"e", 30, 1, 300⟩
        (fun i => if i < 1 then AttemptOutcome.timeout else AttemptOutcome.success "ok")).attempts
      = 1 :=
  ⟨rfl, rfl, rfl⟩

/-- C2 (amended): a response with a 4xx status makes `_make_request` issue
exactly one attempt, sleep no backoff, and immediately raise an
`OllamaConnectionError` — the same exception class used for connection
failures, not a distinct client-error class — whose message carries the
original status code and response body. -/
theorem makeRequest_client_error_no_retry {α : Type} (cfg : ServiceConfig)
    (schedule : Nat → AttemptOutcome α) (status : Nat) (body : String)
    (h400 : 400 ≤ status) (h500 : status < 500)
    (h0 : schedule 0 = AttemptOutcome.httpError status body)
    (hmr : 1 ≤ cfg.maxRetries) :
    makeRequest cfg schedule =
      ⟨.error (.connectionError (clientErrMsg status body)), 0, 1⟩ := by
  obtain ⟨f, hf⟩ : ∃ f, cfg.maxRetries = f + 1 := ⟨cfg.maxRetries - 1, by omega⟩
  have h5 : ¬ 500 ≤ status := by omega
  unfold makeRequest
  rw [hf]
  simp [makeRequestAux, h0, h5]

/-- C2 witness: a 404 with body `"nf"` and `max_retries = 3` gives one
attempt, no sleep and the connection-class error carrying `404 - nf`. -/
theorem makeRequest_client_error_no_retry_witness :
    makeRequest (α := String) ⟨"e", 30, 3, 300⟩ (fun _ => AttemptOutcome.httpError 404 "nf")
      = ⟨.error (.connectionError (clientErrMsg 404 "nf")), 0, 1⟩ :=
  makeRequest_client_error_no_retry ⟨"e", 30, 3, 300⟩ _ 404 "nf"
    (by norm_num) (by norm_num) rfl (by norm_num)

/-- C2 counterexample: the failure raised for a 4xx response is
`OllamaConnectionError` — the very same exception class (`connection`
failure tag) raised for a transport-level connection failure — so it is
not a distinct `ClientRequestFailure` kind. -/
theorem client_error_kind_not_distinct :
    (makeRequest (α := String) ⟨"e", 30, 3, 300⟩
        (fun _ => AttemptOutcome.httpError 404 "nf")).result
      = .error (.connectionError (clientErrMsg 404 "nf"))
    ∧ (makeRequest (α := String) ⟨"e", 30, 1, 300⟩
        (fun _ => AttemptOutcome.connectionFailure)).result
      = .error (.connectionError (connMsg ⟨"e", 30, 1, 300⟩))
    ∧ OllamaError.tag (.connectionError (clientErrMsg 404 "nf"))
      = OllamaError.tag (.connectionError (connMsg ⟨"e", 30, 1, 300⟩)) :=
  ⟨rfl, rfl, rfl⟩

/-- Loop invariant for C10: if `last_exception` is a typed failure whenever
it is set, and is set whenever the fuel is exhausted, then every error the
loop raises is a typed failure (never the `raise None` outcome). -/
theorem makeRequestAux_error_typed {α : Type} (cfg : ServiceConfig)
    (schedule : Nat → AttemptOutcome α) :
    ∀ (fuel attempt : Nat) (last : Option OllamaError) (acc : Nat) (e : OllamaError),
      (last = none → 0 < fuel) →
      (∀ e0, last = some e0 → e0 ≠ OllamaError.raiseNone) →
      (makeRequestAux cfg schedule fuel attempt last acc).result = Except.error e →
      e ≠ OllamaError.raiseNone := by
  intro fuel
  induction fuel with
  | zero =>
    intro attempt last acc e h0 hlast he
    cases last with
    | none => exact absurd (h0 rfl) (by omega)
    | some e0 =>
      simp only [makeRequestAux, Option.getD_some] at he
      obtain rfl : e0 = e := by simpa using he
      exact hlast _ rfl
  | succ fuel ih =>
    intro attempt last acc e h0 hlast he
    cases hsched : schedule attempt with
    | success r =>
      simp [makeRequestAux, hsched] at he
    | timeout =>
      simp only [makeRequestAux, hsched] at he
      exact ih (attempt + 1) _ _ e (by simp) (by simp) he
    | connectionFailure =>
      simp only [makeRequestAux, hsched] at he
      exact ih (attempt + 1) _ _ e (by simp) (by simp) he
    | httpError status body =>
      by_cases h5 : 500 ≤ status
      · simp only [makeRequestAux, hsched, if_pos h5] at he
        exact ih (attempt + 1) _ _ e (by simp) (by simp) he
      · simp only [makeRequestAux, hsched, if_neg h5] at he
        obtain rfl : OllamaError.connectionError (clientErrMsg status body) = e := by
          simpa using he
        simp
    | otherError m =>
      simp only [makeRequestAux, hsched] at he
      exact ih (attempt + 1) _ _ e (by simp) (by simp) he

/-- C10: with `max_retries ≥ 1` every failure `_make_request` raises is one
of the two typed exceptions (`OllamaConnectionError` or
`OllamaTimeoutError`); with `max_retries = 0` the loop never runs and
`raise last_exception` raises the untyped `None` value instead. -/
theorem makeRequest_failures_typed {α : Type} (cfg : ServiceConfig)
    (schedule : Nat → AttemptOutcome α) :
    (1 ≤ cfg.maxRetries →
      ∀ e, (makeRequest cfg schedule).result = Except.error e →
        (∃ m, e = OllamaError.connectionError m) ∨ (∃ m, e = OllamaError.timeoutError m))
    ∧ (cfg.maxRetries = 0 →
        (makeRequest cfg schedule).result = Except.error OllamaError.raiseNone) := by
  constructor
  · intro hmr e he
    have hne : e ≠ OllamaError.raiseNone :=
      makeRequestAux_error_typed cfg schedule cfg.maxRetries 0 none 0 e
        (fun _ => by omega) (fun e0 h => by simp at h) he
    cases e with
    | connectionError m => exact Or.inl ⟨m, rfl⟩
    | timeoutError m => exact Or.inr ⟨m, rfl⟩
    | raiseNone => exact absurd rfl hne
  · intro h0
    unfold makeRequest
    rw [h0]
    rfl

/-- C10 witness: with `max_retries = 1` and a schedule that always times
out, the raised failure is classified as one of the two typed exceptions. -/
theorem makeRequest_failures_typed_witness :
    (∃ m, OllamaError.timeoutError (timeoutMsg ⟨"e", 30, 1, 300⟩)
        = OllamaError.connectionError m)
    ∨ (∃ m, OllamaError.timeoutError (timeoutMsg ⟨"e", 30, 1, 300⟩)
        = OllamaError.timeoutError m) :=
  (makeRequest_failures_typed (α := String) ⟨"e", 30, 1, 300⟩
    (fun _ => AttemptOutcome.timeout)).1 (by norm_num) _ rfl

/-- C4: with `use_cache=true` and a cached snapshot younger than the TTL,
`get_available_models` returns the cached entries with no network call;
consequently, starting from an empty cache, a first call fetches over the
network, a second call within the TTL window is served from the cache
(one network call in total), and a third call at or after TTL expiry
fetches again. -/
theorem cache_hit_and_ttl_expiry (cd : Nat) (st : CacheState) (now : Nat)
    (f : FetchResult) (ms : List ModelInfo) (t : Nat)
    (raws : List RawModel) (t1 t2 t3 : Nat) (f2 f3 : FetchResult)
    (hc : st.modelsCache = some ms) (ht : st.modelsCacheTime = some t)
    (hfresh : now < t + cd) (h2 : t2 < t1 + cd) (h3 : t1 + cd ≤ t3) :
    get_available_models cd st now f true = ⟨.ok ms, st, false⟩
    ∧ ((get_available_models cd ⟨none, none⟩ t1 (.parsed raws) true).networkCalled = true
      ∧ (get_available_models cd
          (get_available_models cd ⟨none, none⟩ t1 (.parsed raws) true).state
          t2 f2 true).networkCalled = false
      ∧ (get_available_models cd
          (get_available_models cd ⟨none, none⟩ t1 (.parsed raws) true).state
          t2 f2 true).result = .ok (raws.map toModelInfo)
      ∧ (get_available_models cd
          (get_available_models cd
            (get_available_models cd ⟨none, none⟩ t1 (.parsed raws) true).state
            t2 f2 true).state
          t3 f3 true).networkCalled = true) := by
  have hvalid : is_cache_valid cd st now = true := by
    unfold is_cache_valid
    rw [hc, ht]
    simpa using hfresh
  constructor
  · unfold get_available_models
    rw [hvalid]
    simp [hc]
  · have hstate1 :
        (get_available_models cd ⟨none, none⟩ t1 (.parsed raws) true).state
          = ⟨some (raws.map toModelInfo), some t1⟩ := by
      simp [get_available_models, is_cache_valid]
    have hnet1 :
        (get_available_models cd ⟨none, none⟩ t1 (.parsed raws) true).networkCalled = true := by
      simp [get_available_models, is_cache_valid]
    have hvalid2 :
        is_cache_valid cd ⟨some (raws.map toModelInfo), some t1⟩ t2 = true := by
      unfold is_cache_valid
      simpa using h2
    have hcall2 :
        get_available_models cd ⟨some (raws.map toModelInfo), some t1⟩ t2 f2 true
          = ⟨.ok (raws.map toModelInfo), ⟨some (raws.map toModelInfo), some t1⟩, false⟩ := by
      unfold get_available_models
      rw [hvalid2]
      simp
    have hvalid3 :
        is_cache_valid cd ⟨some (raws.map toModelInfo), some t1⟩ t3 = false := by
      unfold is_cache_valid
      simpa using by omega
    refine ⟨hnet1, ?_, ?_, ?_⟩
    · rw [hstate1, hcall2]
    · rw [hstate1, hcall2]
    · rw [hstate1, hcall2]
      show (get_available_models cd ⟨some (raws.map toModelInfo), some t1⟩ t3 f3 true).networkCalled = true
      unfold get_available_models
      rw [hvalid3]
      cases f3 <;> simp

/-- C4 witness: TTL 300, first fetch at time 0, cache hit at time 100,
expiry fetch at time 300. -/
theorem cache_hit_and_ttl_expiry_witness :
    get_available_models 300 ⟨some [], some 0⟩ 10 (.parsed []) true
      = ⟨.ok [], ⟨some [], some 0⟩, false⟩
    ∧ ((get_available_models 300 ⟨none, none⟩ 0 (.parsed []) true).networkCalled = true
      ∧ (get_available_models 300
          (get_available_models 300 ⟨none, none⟩ 0 (.parsed []) true).state
          100 (.parsed []) true).networkCalled = false
      ∧ (get_available_models 300
          (get_available_models 300 ⟨none, none⟩ 0 (.parsed []) true).state
          100 (.parsed []) true).result = .ok (List.map toModelInfo [])
      ∧ (get_available_models 300
          (get_available_models 300
            (get_available_models 300 ⟨none, none⟩ 0 (.parsed []) true).state
            100 (.parsed []) true).state
          300 (.parsed []) true).networkCalled = true) :=
  cache_hit_and_ttl_expiry 300 ⟨some [], some 0⟩ 10 (.parsed []) [] 0 [] 0 100 300
    (.parsed []) (.parsed []) rfl rfl (by norm_num) (by norm_num) (by norm_num)

/-- C9: when the fetch is actually consulted (cache bypassed or invalid)
and it fails — the transport raised, or the JSON body could not be parsed —
`get_available_models` raises an error and leaves both cache fields exactly
as they were. -/
theorem failed_fetch_preserves_cache (cd : Nat) (st : CacheState) (now : Nat)
    (uc : Bool) (e : OllamaError) (msg : String)
    (hforced : uc = false ∨ is_cache_valid cd st now = false) :
    ((get_available_models cd st now (.transportError e) uc).state = st
      ∧ ∃ e1, (get_available_models cd st now (.transportError e) uc).result
          = .error e1)
    ∧ ((get_available_models cd st now (.parseError msg) uc).state = st
      ∧ (get_available_models cd st now (.parseError msg) uc).result
          = .error (.connectionError ("Failed to parse models response: " ++ msg))) := by
  have hcond : (uc && is_cache_valid cd st now) = false := by
    rcases hforced with h | h <;> simp [h]
  unfold get_available_models
  rw [hcond]
  exact ⟨⟨rfl, ⟨reraise "Failed to parse models response: " e, rfl⟩⟩, rfl, rfl⟩

/-- C9 witness: a bypassing fetch (use_cache=false) ending in a transport
timeout and in a parse failure leaves the populated cache untouched. -/
theorem failed_fetch_preserves_cache_witness :
    ((get_available_models 300 ⟨some [], some 7⟩ 500
        (.transportError (.timeoutError "t")) false).state = ⟨some [], some 7⟩
      ∧ ∃ e1, (get_available_models 300 ⟨some [], some 7⟩ 500
          (.transportError (.timeoutError "t")) false).result = .error e1)
    ∧ ((get_available_models 300 ⟨some [], some 7⟩ 500 (.parseError "bad json") false).state
        = ⟨some [], some 7⟩
      ∧ (get_available_models 300 ⟨some [], some 7⟩ 500 (.parseError "bad json") false).result
        = .error (.connectionError ("Failed to parse models response: " ++ "bad json"))) :=
  failed_fetch_preserves_cache 300 ⟨some [], some 7⟩ 500 false
    (.timeoutError "t") "bad json" (Or.inl rfl)

/-- C7 counterexample: in the empty-cache state, the dictionary returned by
`get_cache_info` contains no TTL entry — there is no
`cache_duration_seconds` key — although it does contain `cached`; so the
returned record does not carry all five claimed fields in both states. -/
theorem cache_info_empty_lacks_ttl :
    ((get_cache_info 300 ⟨none, none⟩ 0).map Prod.fst).contains "cache_duration_seconds"
      = false
    ∧ ((get_cache_info 300 ⟨none, none⟩ 0).map Prod.fst).contains "cached" = true :=
  ⟨rfl, rfl⟩

/-- C7 (amended): `get_cache_info` always returns the `cached`,
`cache_age_seconds`, `cache_valid` and `models_count` fields (and a
`cache_time`), but the TTL field `cache_duration_seconds` is present
exactly when both cache fields are set — it is omitted in the
uncached/empty-cache state. -/
theorem cache_info_fields (cd : Nat) (st : CacheState) (now : Nat) :
    ((get_cache_info cd st now).map Prod.fst).contains "cached" = true
    ∧ ((get_cache_info cd st now).map Prod.fst).contains "cache_time" = true
    ∧ ((get_cache_info cd st now).map Prod.fst).contains "cache_age_seconds" = true
    ∧ ((get_cache_info cd st now).map Prod.fst).contains "cache_valid" = true
    ∧ ((get_cache_info cd st now).map Prod.fst).contains "models_count" = true
    ∧ ((get_cache_info cd st now).map Prod.fst).contains "cache_duration_seconds"
      = (st.modelsCache.isSome && st.modelsCacheTime.isSome) := by
  obtain ⟨mc, mt⟩ := st
  cases mc <;> cases mt <;> exact ⟨rfl, rfl, rfl, rfl, rfl, rfl⟩

/-- Banker's rounding is within half a unit of its argument. -/
theorem pyRound_near (q : ℚ) : |(pyRound q : ℚ) - q| ≤ 1 / 2 := by
  have hf0 : (0:ℚ) ≤ Int.fract q := Int.fract_nonneg q
  have hf1 : Int.fract q < 1 := Int.fract_lt_one q
  have hfe : Int.fract q = q - (⌊q⌋ : ℚ) := rfl
  have hfl : (⌊q⌋ : ℚ) ≤ q := Int.floor_le q
  rw [abs_le]
  unfold pyRound
  split
  · constructor <;> linarith
  · split
    · push_cast
      constructor <;> linarith
    · split
      · constructor <;> linarith
      · push_cast
        constructor <;> linarith

/-- Python `round(x, 1)` is within `1/20` of its argument. -/
theorem pyRound1_near (q : ℚ) : |pyRound1 q - q| ≤ 1 / 20 := by
  have h := pyRound_near (q * 10)
  unfold pyRound1
  rw [abs_le] at h ⊢
  constructor <;> linarith

/-- C8: every raw model record with a present non-zero size yields a
`size_mb` that is an integer number of tenths (one decimal place) within
half a decimal step of `size / (1024 * 1024)`; a missing or zero size
yields `size_mb = 0`. -/
theorem size_mb_rounded (m : RawModel) :
    (∀ n, m.size = some n → n ≠ 0 →
      (∃ z : ℤ, (toModelInfo m).size_mb = (z : ℚ) / 10)
      ∧ |(toModelInfo m).size_mb - (n : ℚ) / (1024 * 1024)| ≤ 1 / 20)
    ∧ ((m.size = none ∨ m.size = some 0) → (toModelInfo m).size_mb = 0) := by
  constructor
  · intro n hn hnz
    have hmb : (toModelInfo m).size_mb = pyRound1 ((n : ℚ) / (1024 * 1024)) := by
      simp [toModelInfo, hn, hnz]
    rw [hmb]
    exact ⟨⟨pyRound ((n : ℚ) / (1024 * 1024) * 10), rfl⟩, pyRound1_near _⟩
  · rintro (hn | hn) <;> simp [toModelInfo, hn]

/-- C8 witness: a 50 MiB model (size 52428800) gets a one-decimal
`size_mb` within half a decimal step of exactly 50. -/
theorem size_mb_rounded_witness :
    (∃ z : ℤ, (toModelInfo ⟨some "m", some 52428800, some "x", some "d"⟩).size_mb
        = (z : ℚ) / 10)
    ∧ |(toModelInfo ⟨some "m", some 52428800, some "x", some "d"⟩).size_mb
        - (52428800 : ℚ) / (1024 * 1024)| ≤ 1 / 20 :=
  (size_mb_rounded ⟨some "m", some 52428800, some "x", some "d"⟩).1 52428800 rfl
    (by norm_num)

/-- C3 counterexample: with no caller-supplied model and no configured
default, `refine_prompt` does not fail — the outbound generation request
carries a null model and the call succeeds when the transport succeeds
(`test_prompt` likewise sends a null model). -/
theorem refine_no_default_sends_null_model :
    (refine_prompt ⟨none, 7 / 10⟩ ⟨"Do: {objective}", {}⟩ 30
        (fun _ => .parsed (some "hi")) "obj" none).payload.model = none
    ∧ (refine_prompt ⟨none, 7 / 10⟩ ⟨"Do: {objective}", {}⟩ 30
        (fun _ => .parsed (some "hi")) "obj" none).result = .ok "hi"
    ∧ (test_prompt ⟨none, 7 / 10⟩ 30 (fun _ => .parsed (some "hi")) 1 "S" "U"
        none none none).payload.model = none :=
  ⟨rfl, rfl, rfl⟩

/-- C3 (amended): both workflows resolve the model to the caller-supplied
target model (when non-empty) or else the configured default, so every
outbound request carries that resolved model; but when neither is present
the call does not fail — the request is sent with a null model. -/
theorem model_resolution (appCfg : AppConfig) (meta : MetaPromptConfig) (sto : Nat)
    (fetch : GeneratePayload → GenFetch) (obj : String) (tm : Option String)
    (el : ℚ) (s u : String) (temp : Option ℚ) (tmo : Option Nat) :
    (∀ m, tm = some m → m ≠ "" →
      (refine_prompt appCfg meta sto fetch obj tm).payload.model = some m
      ∧ (test_prompt appCfg sto fetch el s u tm temp tmo).payload.model = some m)
    ∧ (tm = none → ∀ d, appCfg.default_model = some d →
      (refine_prompt appCfg meta sto fetch obj tm).payload.model = some d
      ∧ (test_prompt appCfg sto fetch el s u tm temp tmo).payload.model = some d)
    ∧ (tm = none → appCfg.default_model = none →
      (refine_prompt appCfg meta sto fetch obj tm).payload.model = none
      ∧ (refine_prompt appCfg meta sto (fun _ => .parsed (some "x")) obj tm).result
          = .ok "x") := by
  refine ⟨?_, ?_, ?_⟩
  · intro m hm hne
    subst hm
    constructor <;> simp [refine_prompt, test_prompt, pyOrStr, hne]
  · intro h d hd
    subst h
    constructor <;> simp [refine_prompt, test_prompt, pyOrStr, hd]
  · intro h1 h2
    subst h1
    refine ⟨?_, rfl⟩
    simp [refine_prompt, pyOrStr, h2]

/-- C3 witness: with no target model and configured default `"llama"`,
both workflows send model `"llama"`. -/
theorem model_resolution_witness :
    (refine_prompt ⟨some "llama", 7 / 10⟩ ⟨"T {objective}", {}⟩ 30
        (fun _ => .parsed (some "hi")) "o" none).payload.model = some "llama"
    ∧ (test_prompt ⟨some "llama", 7 / 10⟩ 30 (fun _ => .parsed (some "hi")) 1 "S" "U"
        none none none).payload.model = some "llama" :=
  (model_resolution ⟨some "llama", 7 / 10⟩ ⟨"T {objective}", {}⟩ 30
      (fun _ => .parsed (some "hi")) "o" none 1 "S" "U" none none).2.1 rfl "llama" rfl

/-- C5: `test_prompt` keeps an explicitly supplied temperature of 0 —
with configured default temperature 0.7, a call with `temperature=0.0`
sends temperature 0 in the request options and (on success) returns a
TestResult whose temperature field is 0, not 0.7. -/
theorem temperature_zero_not_defaulted (dm : Option String) (sto : Nat)
    (fetch : GeneratePayload → GenFetch) (el : ℚ) (s u : String)
    (m : Option String) (tmo : Option Nat) :
    (test_prompt ⟨dm, 7 / 10⟩ sto fetch el s u m (some 0) tmo).payload.options.temperature
      = some 0
    ∧ ∀ tr, (test_prompt ⟨dm, 7 / 10⟩ sto fetch el s u m (some 0) tmo).result = .ok tr →
        tr.temperature = 0 := by
  constructor
  · rfl
  · intro tr htr
    simp only [test_prompt] at htr
    split at htr
    · exact absurd htr (by simp)
    · exact absurd htr (by simp)
    · split at htr
      · exact absurd htr (by simp)
      · injection htr with h2
        rw [← h2]

/-- C5 witness: with default temperature 0.7 and `temperature=0`, the
request options carry temperature 0 and the returned TestResult has
temperature 0. -/
theorem temperature_zero_not_defaulted_witness :
    (test_prompt ⟨some "m", 7 / 10⟩ 30 (fun _ => .parsed (some "Hello")) 1 "S" "U"
        none (some 0) none).payload.options.temperature = some 0
    ∧ TestResult.temperature
        { response := "Hello", execution_time := pyRound2 1, model := some "m",
          temperature := 0, timeout := 30, system_prompt := "S", user_input := "U" }
      = 0 :=
  ⟨(temperature_zero_not_defaulted (some "m") 30 (fun _ => .parsed (some "Hello"))
      1 "S" "U" none none).1,
   (temperature_zero_not_defaulted (some "m") 30 (fun _ => .parsed (some "Hello"))
      1 "S" "U" none none).2 _ rfl⟩

/-- C6: an HTTP-successful generation response whose body is empty after
stripping whitespace makes both `refine_prompt` and `test_prompt` fail
with the empty-response `OllamaConnectionError`; a body that strips to
non-empty text makes both succeed with exactly the stripped text. -/
theorem empty_response_guard (appCfg : AppConfig) (meta : MetaPromptConfig)
    (sto : Nat) (el : ℚ) (obj s u : String) (tm m : Option String)
    (temp : Option ℚ) (tmo : Option Nat) (body : Option String) :
    (stripGet body = "" →
      (refine_prompt appCfg meta sto (fun _ => .parsed body) obj tm).result
        = .error (.connectionError
            "Received empty response from Ollama during prompt refinement")
      ∧ (test_prompt appCfg sto (fun _ => .parsed body) el s u m temp tmo).result
        = .error (.connectionError
            "Received empty response from Ollama during prompt testing"))
    ∧ (stripGet body ≠ "" →
      (refine_prompt appCfg meta sto (fun _ => .parsed body) obj tm).result
        = .ok (stripGet body)
      ∧ ∀ tr, (test_prompt appCfg sto (fun _ => .parsed body) el s u m temp tmo).result
          = .ok tr → tr.response = stripGet body) := by
  constructor
  · intro h
    constructor
    · simp [refine_prompt, h]
    · simp [test_prompt, h]
  · intro h
    constructor
    · simp [refine_prompt, h]
    · intro tr htr
      simp only [test_prompt] at htr
      rw [if_neg h] at htr
      injection htr with h2
      rw [← h2]

/-- C6 witness: a whitespace-only body `"   "` makes both workflows fail
with the empty-response error. -/
theorem empty_response_guard_witness :
    (refine_prompt ⟨some "m", 7 / 10⟩ ⟨"T {objective}", {}⟩ 30
        (fun _ => .parsed (some "   ")) "o" none).result
      = .error (.connectionError
          "Received empty response from Ollama during prompt refinement")
    ∧ (test_prompt ⟨some "m", 7 / 10⟩ 30 (fun _ => .parsed (some "   ")) 1 "S" "U"
        none none none).result
      = .error (.connectionError
          "Received empty response from Ollama during prompt testing") :=
  (empty_response_guard ⟨some "m", 7 / 10⟩ ⟨"T {objective}", {}⟩ 30 1 "o" "S" "U"
      none none none none (some "   ")).1 rfl
